import Mathlib

/-!
Shallow embedding of the simulation core of `src/src/main.rs` (a
Breakout-style game built on the Bevy engine): the configuration
constants, the wall layout (`WallLocation`), the brick-grid layout math
of `setup`, the motion integrator `apply_velocity`, the paddle
controller `move_object`, and the collision resolver
`check_for_collision`.  Machine `f32` arithmetic is embedded as exact
arithmetic over `ℚ` (over `ℝ` where `Vec3::normalize`'s square root is
needed); the `as usize` cast of a floor is modelled explicitly.
-/

/-- Two-component vector (glam/bevy `Vec2`). -/
structure Vec2 (α : Type) where
  x : α
  y : α
  deriving DecidableEq

/-- Three-component vector (glam/bevy `Vec3`). -/
structure Vec3 (α : Type) where
  x : α
  y : α
  z : α
  deriving DecidableEq

/-- `Vec3::truncate`: drop the `z` component. -/
def Vec3.truncate {α : Type} (v : Vec3 α) : Vec2 α := ⟨v.x, v.y⟩

/-- `const TIME_STEP: f32 = 1.0 / 60.0` (src/src/main.rs:15). -/
def TIME_STEP : ℚ := 1 / 60

/-- `const PADDLE_SIZE: Vec3 = Vec3::new(2.0, 1.0, 1.0)` (line 16). -/
def PADDLE_SIZE : Vec3 ℚ := ⟨2, 1, 1⟩

/-- `const BRICK_SIZE: Vec3 = Vec3::new(1.0, 0.4, 1.0)` (line 17). -/
def BRICK_SIZE : Vec3 ℚ := ⟨1, 2 / 5, 1⟩

/-- `const GAP_BETWEEN_BRICKS_AND_SIDES: f32 = 0.5` (line 18). -/
def GAP_BETWEEN_BRICKS_AND_SIDES : ℚ := 1 / 2

/-- `const GAP_BETWEEN_PADDLE_AND_FLOOR: f32 = 0.2` (line 19). -/
def GAP_BETWEEN_PADDLE_AND_FLOOR : ℚ := 1 / 5

/-- `const GAP_BETWEEN_BRICKS: f32 = 0.3` (line 20). -/
def GAP_BETWEEN_BRICKS : ℚ := 3 / 10

/-- `const GAP_BETWEEN_BRICKS_AND_CEILING: f32 = 0.3` (line 21). -/
def GAP_BETWEEN_BRICKS_AND_CEILING : ℚ := 3 / 10

/-- `const PADDLE_PADDING: f32 = 0.1` (line 22). -/
def PADDLE_PADDING : ℚ := 1 / 10

/-- `const GAP_BETWEEN_PADDLE_AND_BRICKS: f32 = 3.0` (line 23). -/
def GAP_BETWEEN_PADDLE_AND_BRICKS : ℚ := 3

/-- `const BALL_SIZE: Vec3 = Vec3::new(0.2, 0.2, 0.2)` (line 24). -/
def BALL_SIZE : Vec3 ℚ := ⟨1 / 5, 1 / 5, 1 / 5⟩

/-- `const BALL_SPEED: f32 = 7.0` (line 25). -/
def BALL_SPEED : ℚ := 7

/-- `const PADDLE_SPEED: f32 = 8.0` (line 26). -/
def PADDLE_SPEED : ℚ := 8

/-- `const WALL_THICKNESS: f32 = 1.0` (line 27). -/
def WALL_THICKNESS : ℚ := 1

/-- `const BALL_STARTING_POSITION: Vec3 = Vec3::new(-4.0, 2.0, 0.0)` (line 28). -/
def BALL_STARTING_POSITION : Vec3 ℚ := ⟨-4, 2, 0⟩

/-- `const INITIAL_BALL_DIRECTION: Vec3 = Vec3::new(0.5, -0.5, 0.0)` (line 29). -/
def INITIAL_BALL_DIRECTION : Vec3 ℚ := ⟨1 / 2, -(1 / 2), 0⟩

/-- `const LEFT_WALL: f32 = 0.0` (line 30). -/
def LEFT_WALL : ℚ := 0

/-- `const RIGHT_WALL: f32 = 10.0` (line 31). -/
def RIGHT_WALL : ℚ := 10

/-- `const TOP_WALL: f32 = 10.0` (line 32). -/
def TOP_WALL : ℚ := 10

/-- `const BOTTOM_WALL: f32 = 0.0` (line 33). -/
def BOTTOM_WALL : ℚ := 0

/-- The side-classification enum `bevy::sprite::collide_aabb::Collision`
used by `check_for_collision` (src/src/main.rs:420-426). -/
inductive Collision
  | Left
  | Right
  | Top
  | Bottom
  | Inside
  deriving DecidableEq

/-- Absolute value of a rational, written out by cases so that concrete
instances evaluate by `simp`/`norm_num`. -/
def absQ (q : ℚ) : ℚ := if q < 0 then -q else q

/-- Modelled from the spec: the AABB classifier
`bevy::sprite::collide_aabb::collide` that `check_for_collision` calls
(src/src/main.rs:395-400) is engine code, not part of this repository's
source; §4.1 of the spec specifies it.  Boxes are given by center and
full size (half-size = size/2); "no collision" when the boxes do not
overlap on both axes; `Inside` when A's center lies within B's half-size
box on both axes (fully embedded); otherwise the axis of smaller
absolute penetration is dominant (x on ties) and the sign of the
center-to-center delta selects `Left`/`Right` (negative delta: A struck
B's left side) or `Bottom`/`Top`. -/
def collide (aPos : Vec3 ℚ) (aSize : Vec2 ℚ) (bPos : Vec3 ℚ) (bSize : Vec2 ℚ) :
    Option Collision :=
  let dx := aPos.x - bPos.x
  let dy := aPos.y - bPos.y
  let combinedHx := aSize.x / 2 + bSize.x / 2
  let combinedHy := aSize.y / 2 + bSize.y / 2
  if absQ dx < combinedHx ∧ absQ dy < combinedHy then
    if absQ dx ≤ bSize.x / 2 ∧ absQ dy ≤ bSize.y / 2 then
      some Collision.Inside
    else
      if combinedHx - absQ dx ≤ combinedHy - absQ dy then
        if dx < 0 then some Collision.Left else some Collision.Right
      else
        if dy < 0 then some Collision.Bottom else some Collision.Top
  else
    none

/-- The `reflect_x` flag of `check_for_collision` (src/src/main.rs:414,
421-422): set only for `Left` with `velocity.x > 0` or `Right` with
`velocity.x < 0`. -/
def reflectX (c : Collision) (v : Vec3 ℚ) : Bool :=
  match c with
  | Collision.Left => decide (0 < v.x)
  | Collision.Right => decide (v.x < 0)
  | _ => false

/-- The `reflect_y` flag of `check_for_collision` (src/src/main.rs:415,
423-424): set only for `Top` with `velocity.y < 0` or `Bottom` with
`velocity.y > 0`. -/
def reflectY (c : Collision) (v : Vec3 ℚ) : Bool :=
  match c with
  | Collision.Top => decide (v.y < 0)
  | Collision.Bottom => decide (0 < v.y)
  | _ => false

/-- The velocity update of `check_for_collision` (src/src/main.rs:413-434):
negate `x` if `reflect_x`, negate `y` if `reflect_y`, leave `z` alone. -/
def resolveCollision (c : Collision) (v : Vec3 ℚ) : Vec3 ℚ :=
  ⟨if reflectX c v then -v.x else v.x,
   if reflectY c v then -v.y else v.y,
   v.z⟩

/-- Kind tag of a collider entity: the marker components `Paddle`,
`Brick` (src/src/main.rs:43-59) or a wall (`WallBundle`, line 64). -/
inductive EntityKind
  | Wall
  | Paddle
  | Brick
  deriving DecidableEq

/-- One entity carrying the `Collider` marker, as seen by the
`collider_query` of `check_for_collision` (src/src/main.rs:388):
its transform (translation and scale) and whether it is a brick. -/
structure ColliderEntity where
  kind : EntityKind
  translation : Vec3 ℚ
  scale : Vec3 ℚ
  deriving DecidableEq

/-- `maybe_brick.is_some()` (src/src/main.rs:407). -/
def ColliderEntity.isBrick (e : ColliderEntity) : Bool :=
  match e.kind with
  | EntityKind.Brick => true
  | _ => false

/-- `With<Paddle>` (src/src/main.rs:330). -/
def ColliderEntity.isPaddle (e : ColliderEntity) : Bool :=
  match e.kind with
  | EntityKind.Paddle => true
  | _ => false

/-- Outcome of one iteration of the collider loop of
`check_for_collision`: the ball velocity after the iteration, the score
increment, the number of `CollisionEvent`s sent, and whether the
collider was despawned. -/
structure StepOut where
  velocity : Vec3 ℚ
  scoreDelta : ℕ
  eventsSent : ℕ
  despawn : Bool
  deriving DecidableEq

/-- One iteration of the collider loop of `check_for_collision`
(src/src/main.rs:394-435): run `collide`; on any `Some` result send one
`CollisionEvent` (line 404), add 1 to the score and despawn the entity
if it is a brick (lines 407-411), and negate the velocity components
flagged by the `match` on the collision side (lines 413-434). -/
def collideStep (ballPos ballScale vel : Vec3 ℚ) (e : ColliderEntity) : StepOut :=
  match collide ballPos ballScale.truncate e.translation e.scale.truncate with
  | none => ⟨vel, 0, 0, false⟩
  | some c =>
      ⟨resolveCollision c vel, if e.isBrick then 1 else 0, 1, e.isBrick⟩

/-- Accumulated outcome of the whole collider loop of
`check_for_collision`: final ball velocity, total score increment,
total events sent, and the colliders that were not despawned. -/
structure ResolveOut where
  velocity : Vec3 ℚ
  scoreDelta : ℕ
  eventsSent : ℕ
  remaining : List ColliderEntity
  deriving DecidableEq

/-- The collider loop of `check_for_collision` (src/src/main.rs:394-438),
threading the mutable ball velocity through the iterations; despawns
are deferred (`Commands`), so each collider is still iterated this tick
and the survivors are collected. -/
def runColliders (ballPos ballScale : Vec3 ℚ) :
    Vec3 ℚ → List ColliderEntity → ResolveOut
  | vel, [] => ⟨vel, 0, 0, []⟩
  | vel, e :: rest =>
      let r := collideStep ballPos ballScale vel e
      let t := runColliders ballPos ballScale r.velocity rest
      ⟨t.velocity, r.scoreDelta + t.scoreDelta, r.eventsSent + t.eventsSent,
       if r.despawn then t.remaining else e :: t.remaining⟩

/-- Simulation state: the `Scoreboard` resource (src/src/main.rs:121-124,
initialised to 0 in `main`, line 130), the single ball's transform,
scale and `Velocity`, and the entities carrying `Collider`. -/
structure World where
  score : ℕ
  ballPos : Vec3 ℚ
  ballScale : Vec3 ℚ
  ballVel : Vec3 ℚ
  colliders : List ColliderEntity
  deriving DecidableEq

/-- The system `check_for_collision` (src/src/main.rs:384-439) as a
whole-tick transform: run the collider loop, add the score increments
to the `Scoreboard`, keep the non-despawned colliders, and store the
resulting ball velocity. -/
def checkForCollision (w : World) : World :=
  let r := runColliders w.ballPos w.ballScale w.ballVel w.colliders
  { w with score := w.score + r.scoreDelta
         , ballVel := r.velocity
         , colliders := r.remaining }

/-- The body of `apply_velocity` for one entity
(src/src/main.rs:376-382): `translation += velocity * TIME_STEP`
componentwise, with the timestep a fixed constant. -/
def applyVelocityV {α : Type} [Field α] (dt : α) (p v : Vec3 α) : Vec3 α :=
  ⟨p.x + v.x * dt, p.y + v.y * dt, p.z + v.z * dt⟩

/-- The system `apply_velocity` (src/src/main.rs:376-382) on the world:
only the ball carries a `Velocity` component, so only the ball moves. -/
def applyVelocity (w : World) : World :=
  { w with ballPos := applyVelocityV TIME_STEP w.ballPos w.ballVel }

/-- The `direction` accumulator of `move_object`
(src/src/main.rs:331-338): starts at 0, `+= 1.0` if `Up` is pressed,
`-= 1.0` if `Down` is pressed. -/
def paddleDirection (up down : Bool) : ℚ :=
  (if up then (1 : ℚ) else 0) + (if down then (-1 : ℚ) else 0)

/-- `left_bound` of `move_object` (src/src/main.rs:342). -/
def left_bound : ℚ := -5 + WALL_THICKNESS / 2 + PADDLE_SIZE.x / 2 + PADDLE_PADDING

/-- `right_bound` of `move_object` (src/src/main.rs:343). -/
def right_bound : ℚ := 5 - WALL_THICKNESS / 2 - PADDLE_SIZE.x / 2 - PADDLE_PADDING

/-- Rust's `f32::clamp(lo, hi)` on non-NaN input: `lo` if below, `hi` if
above, the value itself otherwise (Rust asserts `lo <= hi`; the bounds
used in `move_object` are constants with `lo < hi`). -/
def rustClamp (x lo hi : ℚ) : ℚ :=
  if x < lo then lo else if hi < x then hi else x

/-- The new paddle x of `move_object` (src/src/main.rs:340-345):
`paddle.x + direction * PADDLE_SPEED * TIME_STEP`, clamped to
`[left_bound, right_bound]`. -/
def movePaddleX (x : ℚ) (up down : Bool) : ℚ :=
  rustClamp (x + paddleDirection up down * PADDLE_SPEED * TIME_STEP)
    left_bound right_bound

/-- The system `move_object` (src/src/main.rs:330-346) on the world:
moves the transform of the paddle (the single `With<Paddle>` entity)
along x; all other entities are untouched. -/
def moveObject (up down : Bool) (w : World) : World :=
  { w with colliders := w.colliders.map fun e =>
      if e.isPaddle then
        { e with translation :=
            ⟨movePaddleX e.translation.x up down, e.translation.y, e.translation.z⟩ }
      else e }

/-- The key state read by `move_object` each tick. -/
structure TickInput where
  up : Bool
  down : Bool
  deriving DecidableEq

/-- One fixed-timestep tick of the simulation schedule
(src/src/main.rs:135-142): `move_object` and `apply_velocity` run
before `check_for_collision`. -/
def tick (i : TickInput) (w : World) : World :=
  checkForCollision (applyVelocity (moveObject i.up i.down w))

/-- A sequence of fixed-timestep ticks. -/
def runTicks : List TickInput → World → World
  | [], w => w
  | i :: rest, w => runTicks rest (tick i w)

/-- The enum `WallLocation` (src/src/main.rs:70-75). -/
inductive WallLocation
  | Left
  | Right
  | Bottom
  | Top
  deriving DecidableEq

/-- `let arena_height = TOP_WALL - BOTTOM_WALL` in `WallLocation::size`
(src/src/main.rs:89). -/
def arena_height : ℚ := TOP_WALL - BOTTOM_WALL

/-- `let arena_width = RIGHT_WALL - LEFT_WALL` in `WallLocation::size`
(src/src/main.rs:90). -/
def arena_width : ℚ := RIGHT_WALL - LEFT_WALL

/-- `WallLocation::position` (src/src/main.rs:79-86). -/
def WallLocation.position : WallLocation → Vec3 ℚ
  | WallLocation.Left => ⟨LEFT_WALL - RIGHT_WALL / 2, TOP_WALL / 2, 0⟩
  | WallLocation.Right => ⟨RIGHT_WALL / 2, TOP_WALL / 2, 0⟩
  | WallLocation.Top => ⟨0, TOP_WALL, 0⟩
  | WallLocation.Bottom => ⟨0, BOTTOM_WALL, 0⟩

/-- `WallLocation::size` (src/src/main.rs:88-102) at the configured
constants (its two `assert!`s hold there: `arena_height = 10 > 0` and
`arena_width = 10 > 0`).  Note the source uses `arena_height` in the
x-component of the `Bottom | Top` branch as well. -/
def WallLocation.size : WallLocation → Vec3 ℚ
  | WallLocation.Left | WallLocation.Right =>
      ⟨WALL_THICKNESS, arena_height + WALL_THICKNESS, 1⟩
  | WallLocation.Bottom | WallLocation.Top =>
      ⟨arena_height + WALL_THICKNESS, WALL_THICKNESS, 1⟩

/-- The configuration constants that the layout math of `setup` and the
asserts of `WallLocation::size` read, gathered as parameters so those
computations can be stated for every configuration (the source reads
the global `const` items; `theArenaConfig` is that instance). -/
structure ArenaConfig where
  left_wall : ℚ
  right_wall : ℚ
  top_wall : ℚ
  bottom_wall : ℚ
  brick_size_x : ℚ
  brick_size_y : ℚ
  brick_size_z : ℚ
  gap_sides : ℚ
  gap_paddle_floor : ℚ
  gap_bricks : ℚ
  gap_ceiling : ℚ
  gap_paddle_bricks : ℚ
  deriving DecidableEq

/-- The configuration the source compiles with (lines 15-33). -/
def theArenaConfig : ArenaConfig :=
  { left_wall := LEFT_WALL
  , right_wall := RIGHT_WALL
  , top_wall := TOP_WALL
  , bottom_wall := BOTTOM_WALL
  , brick_size_x := BRICK_SIZE.x
  , brick_size_y := BRICK_SIZE.y
  , brick_size_z := BRICK_SIZE.z
  , gap_sides := GAP_BETWEEN_BRICKS_AND_SIDES
  , gap_paddle_floor := GAP_BETWEEN_PADDLE_AND_FLOOR
  , gap_bricks := GAP_BETWEEN_BRICKS
  , gap_ceiling := GAP_BETWEEN_BRICKS_AND_CEILING
  , gap_paddle_bricks := GAP_BETWEEN_PADDLE_AND_BRICKS }

/-- `arena_height` of `WallLocation::size` as a function of the
configuration. -/
def arenaHeightOf (cfg : ArenaConfig) : ℚ := cfg.top_wall - cfg.bottom_wall

/-- `arena_width` of `WallLocation::size` as a function of the
configuration. -/
def arenaWidthOf (cfg : ArenaConfig) : ℚ := cfg.right_wall - cfg.left_wall

/-- `total_width_of_bricks` of `setup` (src/src/main.rs:269). -/
def availableWidth (cfg : ArenaConfig) : ℚ :=
  cfg.right_wall - cfg.left_wall - 2 * cfg.gap_sides

/-- `total_height_of_bricks` of `setup` (src/src/main.rs:168, 270-271):
`TOP_WALL - (paddle_y + GAP_BETWEEN_PADDLE_AND_BRICKS) -
GAP_BETWEEN_BRICKS_AND_CEILING` with
`paddle_y = BOTTOM_WALL + GAP_BETWEEN_PADDLE_AND_FLOOR`. -/
def availableHeight (cfg : ArenaConfig) : ℚ :=
  cfg.top_wall - (cfg.bottom_wall + cfg.gap_paddle_floor + cfg.gap_paddle_bricks) -
    cfg.gap_ceiling

/-- Rust's `.floor() as usize` on a finite `f32`, in exact arithmetic:
the integer floor, saturating at 0 for negative values. -/
def usizeFloor (q : ℚ) : ℕ := Int.toNat ⌊q⌋

instance {ε α : Type} [DecidableEq ε] [DecidableEq α] : DecidableEq (Except ε α) := fun a b =>
  match a, b with
  | Except.ok x, Except.ok y => decidable_of_iff (x = y) (by simp)
  | Except.error x, Except.error y => decidable_of_iff (x = y) (by simp)
  | Except.ok _, Except.error _ => isFalse (by simp)
  | Except.error _, Except.ok _ => isFalse (by simp)

/-- `WallLocation::size` with its two `assert!`s (src/src/main.rs:91-92)
made explicit, as a function of the configuration: `Except.error`
models an assertion failure aborting startup. -/
def wallSizeChecked (cfg : ArenaConfig) (loc : WallLocation) : Except String (Vec3 ℚ) :=
  if 0 < arenaHeightOf cfg then
    if 0 < arenaWidthOf cfg then
      Except.ok (match loc with
        | WallLocation.Left | WallLocation.Right =>
            ⟨WALL_THICKNESS, arenaHeightOf cfg + WALL_THICKNESS, 1⟩
        | WallLocation.Bottom | WallLocation.Top =>
            ⟨arenaHeightOf cfg + WALL_THICKNESS, WALL_THICKNESS, 1⟩)
    else Except.error "assertion failed: arena_width > 0.0"
  else Except.error "assertion failed: arena_height > 0.0"

/-- The brick-grid row/column derivation of `setup`
(src/src/main.rs:264-279) as a function of the configuration.
`Except.error` models a startup panic: the five `assert!`s on the brick
size components and the derived width/height, and the
debug-mode overflow panic of `let n_vertical_gaps = n_columns - 1`
(line 279), which underflows `usize` when `n_columns = 0`.  When only
`n_rows` is 0 nothing panics: the spawn loop (lines 291-314) simply
runs zero times. -/
def brickGridCounts (cfg : ArenaConfig) : Except String (ℕ × ℕ) :=
  if 0 < cfg.brick_size_x then
    if 0 < cfg.brick_size_y then
      if 0 < cfg.brick_size_z then
        if 0 < availableWidth cfg then
          if 0 < availableHeight cfg then
            if usizeFloor (availableWidth cfg / (cfg.brick_size_x + cfg.gap_bricks)) = 0 then
              Except.error "attempt to subtract with overflow"
            else
              Except.ok
                (usizeFloor (availableWidth cfg / (cfg.brick_size_x + cfg.gap_bricks)),
                 usizeFloor (availableHeight cfg / (cfg.brick_size_y + cfg.gap_bricks)))
          else Except.error "assertion failed: total_height_of_bricks > 0.0"
        else Except.error "assertion failed: total_width_of_bricks > 0.0"
      else Except.error "assertion failed: BRICK_SIZE.z > 0.0"
    else Except.error "assertion failed: BRICK_SIZE.y > 0.0"
  else Except.error "assertion failed: BRICK_SIZE.x > 0.0"

/-- glam's `Vec3::normalize`: the vector divided by its Euclidean
length, used for the ball's initial velocity (src/src/main.rs:203). -/
noncomputable def normalize3 (v : Vec3 ℝ) : Vec3 ℝ :=
  ⟨v.x / Real.sqrt (v.x ^ 2 + v.y ^ 2 + v.z ^ 2),
   v.y / Real.sqrt (v.x ^ 2 + v.y ^ 2 + v.z ^ 2),
   v.z / Real.sqrt (v.x ^ 2 + v.y ^ 2 + v.z ^ 2)⟩

/-- Scalar multiple of a vector (`INITIAL_BALL_DIRECTION.normalize() *
BALL_SPEED`, src/src/main.rs:203). -/
def scale3 {α : Type} [Field α] (v : Vec3 α) (s : α) : Vec3 α :=
  ⟨v.x * s, v.y * s, v.z * s⟩

/-- Whether `collide` detects any overlap between the ball and a
collider (the `if let Some(collision)` test, src/src/main.rs:402);
note this does not depend on the ball's velocity. -/
def hitTest (ballPos ballScale : Vec3 ℚ) (e : ColliderEntity) : Bool :=
  (collide ballPos ballScale.truncate e.translation e.scale.truncate).isSome

/-- Whether a collider both overlaps the ball and is a brick — exactly
the condition under which `check_for_collision` increments the score
and despawns it (src/src/main.rs:407-411). -/
def hitBrick (ballPos ballScale : Vec3 ℚ) (e : ColliderEntity) : Bool :=
  hitTest ballPos ballScale e && e.isBrick

/-- Number of brick entities in a collider list. -/
def countBricks (cs : List ColliderEntity) : ℕ :=
  (cs.filter ColliderEntity.isBrick).length

/-- A concrete world: ball of size `BALL_SIZE` at the origin, one wall
far away, one brick overlapping the ball. -/
def witnessWorld : World :=
  { score := 3
  , ballPos := ⟨0, 0, 0⟩
  , ballScale := BALL_SIZE
  , ballVel := ⟨1, 1, 0⟩
  , colliders :=
      [ ⟨EntityKind.Wall, ⟨100, 0, 0⟩, ⟨1, 11, 1⟩⟩
      , ⟨EntityKind.Brick, ⟨0, 0, 0⟩, ⟨1, 2 / 5, 1⟩⟩ ] }

/-- A configuration identical to the source's constants except that the
ceiling (`top_wall = 3.6`) leaves only `0.1` of brick-grid height:
columns still fit (`n_columns = 6`) but no row does. -/
def rowDeficientConfig : ArenaConfig :=
  { left_wall := 0
  , right_wall := 10
  , top_wall := 36 / 10
  , bottom_wall := 0
  , brick_size_x := 1
  , brick_size_y := 2 / 5
  , brick_size_z := 1
  , gap_sides := 1 / 2
  , gap_paddle_floor := 1 / 5
  , gap_bricks := 3 / 10
  , gap_ceiling := 3 / 10
  , gap_paddle_bricks := 3 }

/-- Unfolding equation: the collider loop on a cons cell. -/
theorem runColliders_cons (bp bs vel : Vec3 ℚ) (e : ColliderEntity)
    (rest : List ColliderEntity) :
    runColliders bp bs vel (e :: rest) =
      ⟨(runColliders bp bs (collideStep bp bs vel e).velocity rest).velocity,
       (collideStep bp bs vel e).scoreDelta +
         (runColliders bp bs (collideStep bp bs vel e).velocity rest).scoreDelta,
       (collideStep bp bs vel e).eventsSent +
         (runColliders bp bs (collideStep bp bs vel e).velocity rest).eventsSent,
       if (collideStep bp bs vel e).despawn then
         (runColliders bp bs (collideStep bp bs vel e).velocity rest).remaining
       else e :: (runColliders bp bs (collideStep bp bs vel e).velocity rest).remaining⟩ :=
  rfl

/-- Unfolding equation: one loop iteration when `collide` finds nothing. -/
theorem collideStep_eq_none (bp bs vel : Vec3 ℚ) (e : ColliderEntity)
    (h : collide bp bs.truncate e.translation e.scale.truncate = none) :
    collideStep bp bs vel e = ⟨vel, 0, 0, false⟩ := by
  unfold collideStep
  rw [h]

/-- Unfolding equation: one loop iteration when `collide` classifies a side. -/
theorem collideStep_eq_some (bp bs vel : Vec3 ℚ) (e : ColliderEntity) (c : Collision)
    (h : collide bp bs.truncate e.translation e.scale.truncate = some c) :
    collideStep bp bs vel e =
      ⟨resolveCollision c vel, if e.isBrick then 1 else 0, 1, e.isBrick⟩ := by
  unfold collideStep
  rw [h]

/-- C1: for every detected collision side the resolver negates a
velocity component only if the ball is moving into the struck surface:
`Left` negates `x` exactly when `velocity.x > 0`, `Right` exactly when
`velocity.x < 0`, `Top` negates `y` exactly when `velocity.y < 0`,
`Bottom` exactly when `velocity.y > 0`, and `Inside` changes nothing. -/
theorem reflection_policy_into_surface (v : Vec3 ℚ) :
    resolveCollision Collision.Left v = ⟨if 0 < v.x then -v.x else v.x, v.y, v.z⟩ ∧
    resolveCollision Collision.Right v = ⟨if v.x < 0 then -v.x else v.x, v.y, v.z⟩ ∧
    resolveCollision Collision.Top v = ⟨v.x, if v.y < 0 then -v.y else v.y, v.z⟩ ∧
    resolveCollision Collision.Bottom v = ⟨v.x, if 0 < v.y then -v.y else v.y, v.z⟩ ∧
    resolveCollision Collision.Inside v = v := by
  refine ⟨?_, ?_, ?_, ?_, ?_⟩ <;> simp [resolveCollision, reflectX, reflectY]

/-- C2 counterexample: a ball fully embedded in a brick is classified
`Inside`, yet `check_for_collision` still sends one `CollisionEvent`
for it (the event is sent for every `Some` classification, before the
`match` on the side), contradicting the claim that an `Inside`
classification emits no event. -/
theorem inside_classification_emits_event :
    collide ⟨0, 0, 0⟩ (Vec3.truncate BALL_SIZE) ⟨0, 0, 0⟩
      (Vec3.truncate ⟨1, 2 / 5, 1⟩) = some Collision.Inside ∧
    (collideStep ⟨0, 0, 0⟩ BALL_SIZE ⟨1, 1, 0⟩
      ⟨EntityKind.Brick, ⟨0, 0, 0⟩, ⟨1, 2 / 5, 1⟩⟩).eventsSent = 1 := by
  have h : collide ⟨0, 0, 0⟩ (Vec3.truncate BALL_SIZE) ⟨0, 0, 0⟩
      (Vec3.truncate ⟨1, 2 / 5, 1⟩) = some Collision.Inside := by
    norm_num [collide, absQ, Vec3.truncate, BALL_SIZE]
  refine ⟨h, ?_⟩
  rw [collideStep_eq_some ⟨0, 0, 0⟩ BALL_SIZE ⟨1, 1, 0⟩
    ⟨EntityKind.Brick, ⟨0, 0, 0⟩, ⟨1, 2 / 5, 1⟩⟩ Collision.Inside h]

/-- Correctness of the collider loop: the survivors are exactly the
colliders that are not overlapping bricks, the score increment is the
number of overlapping bricks, and the events sent are one per
overlapping collider. -/
theorem runColliders_spec (bp bs : Vec3 ℚ) (vel : Vec3 ℚ) (cs : List ColliderEntity) :
    (runColliders bp bs vel cs).remaining =
      cs.filter (fun e => !(hitBrick bp bs e)) ∧
    (runColliders bp bs vel cs).scoreDelta =
      (cs.filter (hitBrick bp bs)).length ∧
    (runColliders bp bs vel cs).eventsSent =
      (cs.filter (hitTest bp bs)).length := by
  induction cs generalizing vel with
  | nil => exact ⟨rfl, rfl, rfl⟩
  | cons e rest ih =>
    rw [runColliders_cons]
    cases h : collide bp bs.truncate e.translation e.scale.truncate with
    | none =>
      obtain ⟨ih1, ih2, ih3⟩ := ih vel
      have ht : hitTest bp bs e = false := by simp [hitTest, h]
      have hb : hitBrick bp bs e = false := by simp [hitBrick, ht]
      rw [collideStep_eq_none bp bs vel e h]
      refine ⟨?_, ?_, ?_⟩ <;>
        simp [List.filter_cons, ht, hb, ih1, ih2, ih3]
    | some c =>
      obtain ⟨ih1, ih2, ih3⟩ := ih (resolveCollision c vel)
      have ht : hitTest bp bs e = true := by simp [hitTest, h]
      have hb : hitBrick bp bs e = e.isBrick := by simp [hitBrick, ht]
      rw [collideStep_eq_some bp bs vel e c h]
      cases hk : e.isBrick with
      | false =>
        refine ⟨?_, ?_, ?_⟩ <;>
          simp [List.filter_cons, ht, hb, hk, ih1, ih2, ih3, Nat.add_comm]
      | true =>
        refine ⟨?_, ?_, ?_⟩ <;>
          simp [List.filter_cons, ht, hb, hk, ih1, ih2, ih3, Nat.add_comm]

/-- C2 (amended): `check_for_collision` emits exactly one
`CollisionEvent` per collider whose overlap with the ball is detected —
regardless of the classification, `Inside` included — and emits none
for a collider with no overlap; over the whole loop, the number of
events equals the number of overlapping colliders. -/
theorem one_event_per_detected_overlap (bp bs vel : Vec3 ℚ) (e : ColliderEntity)
    (cs : List ColliderEntity) :
    (collideStep bp bs vel e).eventsSent =
      (if (collide bp bs.truncate e.translation e.scale.truncate).isSome then 1 else 0) ∧
    (runColliders bp bs vel cs).eventsSent = (cs.filter (hitTest bp bs)).length := by
  refine ⟨?_, (runColliders_spec bp bs vel cs).2.2⟩
  cases h : collide bp bs.truncate e.translation e.scale.truncate with
  | none => rw [collideStep_eq_none bp bs vel e h]; rfl
  | some c => rw [collideStep_eq_some bp bs vel e c h]; rfl

/-- C3 counterexample: with the code's side convention (`Right` reflects
only a ball moving in `-x`), a collision classified `Right` for a ball
with velocity `(2, 0)` leaves `velocity.x` at `2`; it is not set to
`-2` as the claim states. -/
theorem right_classification_keeps_positive_vx :
    resolveCollision Collision.Right ⟨2, 0, 0⟩ = ⟨2, 0, 0⟩ ∧ ((2 : ℚ) ≠ -2) := by
  constructor
  · norm_num [resolveCollision, reflectX, reflectY]
  · norm_num

/-- C3 (amended): the bounce of a ball moving in `+x` against a wall is
classified `Left` (the classification names the struck side of the
wall): a ball with velocity `(2, 0)` and classification `Left` gets
`velocity.x = -2`, and re-running the resolver on the now-receding ball
(`velocity.x = -2`, same `Left` classification) changes nothing. -/
theorem left_classification_reflects_no_rereflect :
    resolveCollision Collision.Left ⟨2, 0, 0⟩ = ⟨-2, 0, 0⟩ ∧
    resolveCollision Collision.Left ⟨-2, 0, 0⟩ = ⟨-2, 0, 0⟩ := by
  constructor <;> norm_num [resolveCollision, reflectX, reflectY]

/-- Bricks split between survivors and hit bricks: removing the hit
bricks lowers the brick count by exactly the number of hits. -/
theorem countBricks_split (bp bs : Vec3 ℚ) (cs : List ColliderEntity) :
    countBricks (cs.filter fun e => !(hitBrick bp bs e)) +
      (cs.filter (hitBrick bp bs)).length = countBricks cs := by
  induction cs with
  | nil => rfl
  | cons e rest ih =>
    cases hb : hitBrick bp bs e with
    | false =>
      cases hk : e.isBrick with
      | false =>
        simp [countBricks, List.filter_cons, hb, hk] at ih ⊢
        omega
      | true =>
        simp [countBricks, List.filter_cons, hb, hk] at ih ⊢
        omega
    | true =>
      have hk : e.isBrick = true := by
        have h2 := hb
        simp only [hitBrick, Bool.and_eq_true] at h2
        exact h2.2
      simp [countBricks, List.filter_cons, hb, hk] at ih ⊢
      omega

/-- C4: on a detected collision with a brick, the resolver adds exactly
1 to the score and removes exactly that brick; over a whole tick the
score grows by the number of hit bricks and the survivors are the
colliders that are not hit bricks, so walls and paddles are never
removed, and a single brick hit takes the brick count from `n` to
`n - 1` and the score from `s` to `s + 1`. -/
theorem brick_hit_scores_and_despawns (w : World) :
    (checkForCollision w).score =
      w.score + (w.colliders.filter (hitBrick w.ballPos w.ballScale)).length ∧
    (checkForCollision w).colliders =
      w.colliders.filter (fun e => !(hitBrick w.ballPos w.ballScale e)) ∧
    (∀ e, e ∈ w.colliders → e.isBrick = false →
      e ∈ (checkForCollision w).colliders) ∧
    ((w.colliders.filter (hitBrick w.ballPos w.ballScale)).length = 1 →
      (checkForCollision w).score = w.score + 1 ∧
      countBricks (checkForCollision w).colliders + 1 = countBricks w.colliders) := by
  obtain ⟨h1, h2, h3⟩ := runColliders_spec w.ballPos w.ballScale w.ballVel w.colliders
  have hsc : (checkForCollision w).score =
      w.score + (runColliders w.ballPos w.ballScale w.ballVel w.colliders).scoreDelta := rfl
  have hcl : (checkForCollision w).colliders =
      (runColliders w.ballPos w.ballScale w.ballVel w.colliders).remaining := rfl
  refine ⟨?_, ?_, ?_, ?_⟩
  · rw [hsc, h2]
  · rw [hcl, h1]
  · intro e he hb
    rw [hcl, h1]
    exact List.mem_filter.mpr ⟨he, by simp [hitBrick, hb]⟩
  · intro hone
    constructor
    · rw [hsc, h2, hone]
    · have hsplit := countBricks_split w.ballPos w.ballScale w.colliders
      rw [hcl, h1]
      omega

/-- The per-side velocity update flips signs only, so it preserves the
absolute value of each component and never touches `z`. -/
theorem resolveCollision_abs (c : Collision) (v : Vec3 ℚ) :
    |(resolveCollision c v).x| = |v.x| ∧ |(resolveCollision c v).y| = |v.y| ∧
    (resolveCollision c v).z = v.z := by
  refine ⟨?_, ?_, rfl⟩
  · show |if reflectX c v then -v.x else v.x| = |v.x|
    split <;> simp [abs_neg]
  · show |if reflectY c v then -v.y else v.y| = |v.y|
    split <;> simp [abs_neg]

/-- The whole collider loop preserves the absolute value of each
velocity component and never touches `z`. -/
theorem runColliders_abs (bp bs : Vec3 ℚ) (vel : Vec3 ℚ) (cs : List ColliderEntity) :
    |(runColliders bp bs vel cs).velocity.x| = |vel.x| ∧
    |(runColliders bp bs vel cs).velocity.y| = |vel.y| ∧
    (runColliders bp bs vel cs).velocity.z = vel.z := by
  induction cs generalizing vel with
  | nil => exact ⟨rfl, rfl, rfl⟩
  | cons e rest ih =>
    rw [runColliders_cons]
    cases h : collide bp bs.truncate e.translation e.scale.truncate with
    | none =>
      rw [collideStep_eq_none bp bs vel e h]
      exact ih vel
    | some c =>
      rw [collideStep_eq_some bp bs vel e c h]
      obtain ⟨h1, h2, h3⟩ := ih (resolveCollision c vel)
      obtain ⟨a1, a2, a3⟩ := resolveCollision_abs c vel
      refine ⟨?_, ?_, ?_⟩
      · dsimp only
        rw [h1, a1]
      · dsimp only
        rw [h2, a2]
      · dsimp only
        rw [h3, a3]

/-- C10: the collision resolver only flips the sign of `velocity.x` or
`velocity.y` and never touches `velocity.z`, so each component's
absolute value — and hence the squared magnitude of the velocity — is
unchanged by collision resolution, per side and over the whole loop. -/
theorem resolver_preserves_speed (c : Collision) (v : Vec3 ℚ)
    (bp bs vel : Vec3 ℚ) (cs : List ColliderEntity) :
    |(resolveCollision c v).x| = |v.x| ∧ |(resolveCollision c v).y| = |v.y| ∧
    (resolveCollision c v).z = v.z ∧
    |(runColliders bp bs vel cs).velocity.x| = |vel.x| ∧
    |(runColliders bp bs vel cs).velocity.y| = |vel.y| ∧
    (runColliders bp bs vel cs).velocity.z = vel.z ∧
    (runColliders bp bs vel cs).velocity.x ^ 2 +
        (runColliders bp bs vel cs).velocity.y ^ 2 +
        (runColliders bp bs vel cs).velocity.z ^ 2 =
      vel.x ^ 2 + vel.y ^ 2 + vel.z ^ 2 := by
  obtain ⟨a1, a2, a3⟩ := resolveCollision_abs c v
  obtain ⟨b1, b2, b3⟩ := runColliders_abs bp bs vel cs
  have hx : (runColliders bp bs vel cs).velocity.x ^ 2 = vel.x ^ 2 := by
    rw [← sq_abs, b1, sq_abs]
  have hy : (runColliders bp bs vel cs).velocity.y ^ 2 = vel.y ^ 2 := by
    rw [← sq_abs, b2, sq_abs]
  exact ⟨a1, a2, a3, b1, b2, b3, by rw [hx, hy, b3]⟩

/-- Each tick only ever adds the resolver's score increment. -/
theorem score_le_tick (i : TickInput) (w : World) : w.score ≤ (tick i w).score :=
  Nat.le_add_right w.score _

/-- The score never decreases over any sequence of ticks. -/
theorem score_le_runTicks (inputs : List TickInput) :
    ∀ w : World, w.score ≤ (runTicks inputs w).score := by
  induction inputs with
  | nil => intro w; exact le_rfl
  | cons i rest ih =>
    intro w
    exact le_trans (score_le_tick i w) (ih (tick i w))

/-- C5: the scoreboard is monotonically non-decreasing: the paddle
controller and the integrator leave the score unchanged, the collision
resolver only adds to it, and over every sequence of simulation ticks
the score never decreases. -/
theorem scoreboard_monotone (w : World) (up down : Bool) (i : TickInput)
    (inputs : List TickInput) :
    (moveObject up down w).score = w.score ∧
    (applyVelocity w).score = w.score ∧
    w.score ≤ (checkForCollision w).score ∧
    w.score ≤ (tick i w).score ∧
    w.score ≤ (runTicks inputs w).score :=
  ⟨rfl, rfl, Nat.le_add_right w.score _, score_le_tick i w, score_le_runTicks inputs w⟩

/-- C7: the side walls have size
`(WALL_THICKNESS, arena_height + WALL_THICKNESS)` and the top and
bottom walls size `(arena_width + WALL_THICKNESS, WALL_THICKNESS)`,
with `arena_height = TOP_WALL - BOTTOM_WALL = 10` and
`arena_width = RIGHT_WALL - LEFT_WALL = 10` (the source computes the
top/bottom x-extent from `arena_height`, which equals `arena_width`
under the configured square arena). -/
theorem wall_sizes_match_arena_dimensions :
    WallLocation.size WallLocation.Left = ⟨WALL_THICKNESS, arena_height + WALL_THICKNESS, 1⟩ ∧
    WallLocation.size WallLocation.Right = ⟨WALL_THICKNESS, arena_height + WALL_THICKNESS, 1⟩ ∧
    WallLocation.size WallLocation.Top = ⟨arena_width + WALL_THICKNESS, WALL_THICKNESS, 1⟩ ∧
    WallLocation.size WallLocation.Bottom = ⟨arena_width + WALL_THICKNESS, WALL_THICKNESS, 1⟩ ∧
    arena_height = TOP_WALL - BOTTOM_WALL ∧ arena_width = RIGHT_WALL - LEFT_WALL := by
  refine ⟨rfl, rfl, ?_, ?_, rfl, rfl⟩ <;>
    norm_num [WallLocation.size, arena_height, arena_width, TOP_WALL, BOTTOM_WALL,
      RIGHT_WALL, LEFT_WALL, WALL_THICKNESS]

/-- `rustClamp` lands in `[lo, hi]` whenever `lo ≤ hi`. -/
theorem rustClamp_mem (x lo hi : ℚ) (h : lo ≤ hi) :
    lo ≤ rustClamp x lo hi ∧ rustClamp x lo hi ≤ hi := by
  unfold rustClamp
  split_ifs with h1 h2 <;> constructor <;> linarith

/-- C8: `move_object` maps key intent to a direction (up → +1,
down → −1, both or neither → 0), moves the paddle by
`direction * PADDLE_SPEED * TIME_STEP`, and clamps the result to
`[left_bound, right_bound]`, whose values equal arena half-width minus
half wall thickness, half paddle width and the padding constant; the
resulting paddle x always lies in `[left_bound, right_bound]`. -/
theorem paddle_clamped_within_bounds (x : ℚ) (up down : Bool) :
    movePaddleX x up down =
      rustClamp (x + paddleDirection up down * PADDLE_SPEED * TIME_STEP)
        left_bound right_bound ∧
    paddleDirection true false = 1 ∧ paddleDirection false true = -1 ∧
    paddleDirection true true = 0 ∧ paddleDirection false false = 0 ∧
    left_bound = -(arena_width / 2) + WALL_THICKNESS / 2 + PADDLE_SIZE.x / 2 + PADDLE_PADDING ∧
    right_bound = arena_width / 2 - WALL_THICKNESS / 2 - PADDLE_SIZE.x / 2 - PADDLE_PADDING ∧
    left_bound ≤ movePaddleX x up down ∧ movePaddleX x up down ≤ right_bound := by
  have hb : left_bound ≤ right_bound := by
    norm_num [left_bound, right_bound, WALL_THICKNESS, PADDLE_SIZE, PADDLE_PADDING]
  refine ⟨rfl, by norm_num [paddleDirection], by norm_num [paddleDirection],
    by norm_num [paddleDirection], by norm_num [paddleDirection],
    by norm_num [left_bound, arena_width, RIGHT_WALL, LEFT_WALL],
    by norm_num [right_bound, arena_width, RIGHT_WALL, LEFT_WALL], ?_, ?_⟩
  · simp only [movePaddleX]
    exact (rustClamp_mem _ _ _ hb).1
  · simp only [movePaddleX]
    exact (rustClamp_mem _ _ _ hb).2

/-- Witness for C4 at a concrete world: ball overlapping one brick,
one far-away wall; the score goes from 3 to 4 and the brick count from
1 to 0. -/
theorem brick_hit_scores_and_despawns_witness :
    (checkForCollision witnessWorld).score = witnessWorld.score + 1 ∧
    countBricks (checkForCollision witnessWorld).colliders + 1 =
      countBricks witnessWorld.colliders :=
  (brick_hit_scores_and_despawns witnessWorld).2.2.2 (by
    norm_num [witnessWorld, hitBrick, hitTest, collide, absQ, Vec3.truncate,
      BALL_SIZE, ColliderEntity.isBrick, List.filter_cons])

/-- C6: the integrator adds `velocity * TIME_STEP` to the position —
componentwise, for every entity carrying a velocity — and mutates
nothing else; for the configured scenario (ball starting at `(-4, 2)`
with velocity `normalize((0.5, -0.5, 0)) * 7`), one integration step
with `dt = 1/60` lands componentwise within `1e-5` (indeed exactly) on
`start + normalized_direction * speed * dt`. -/
theorem integrator_advances_by_velocity_dt :
    (∀ (p v : Vec3 ℚ), applyVelocityV TIME_STEP p v =
      ⟨p.x + v.x * TIME_STEP, p.y + v.y * TIME_STEP, p.z + v.z * TIME_STEP⟩) ∧
    (∀ w : World,
      (applyVelocity w).ballPos = applyVelocityV TIME_STEP w.ballPos w.ballVel ∧
      (applyVelocity w).ballVel = w.ballVel ∧
      (applyVelocity w).score = w.score ∧
      (applyVelocity w).ballScale = w.ballScale ∧
      (applyVelocity w).colliders = w.colliders) ∧
    (BALL_STARTING_POSITION = ⟨-4, 2, 0⟩ ∧
      INITIAL_BALL_DIRECTION = ⟨1 / 2, -(1 / 2), 0⟩ ∧
      BALL_SPEED = 7 ∧ TIME_STEP = 1 / 60) ∧
    |(applyVelocityV ((1 : ℝ) / 60) ⟨-4, 2, 0⟩
        (scale3 (normalize3 ⟨1 / 2, -(1 / 2), 0⟩) 7)).x -
      (-4 + (normalize3 (⟨1 / 2, -(1 / 2), 0⟩ : Vec3 ℝ)).x * 7 * (1 / 60))| <
        1 / 100000 ∧
    |(applyVelocityV ((1 : ℝ) / 60) ⟨-4, 2, 0⟩
        (scale3 (normalize3 ⟨1 / 2, -(1 / 2), 0⟩) 7)).y -
      (2 + (normalize3 (⟨1 / 2, -(1 / 2), 0⟩ : Vec3 ℝ)).y * 7 * (1 / 60))| <
        1 / 100000 := by
  refine ⟨fun p v => rfl, fun w => ⟨rfl, rfl, rfl, rfl, rfl⟩, ⟨rfl, rfl, rfl, rfl⟩, ?_, ?_⟩
  · have h : (applyVelocityV ((1 : ℝ) / 60) ⟨-4, 2, 0⟩
        (scale3 (normalize3 ⟨1 / 2, -(1 / 2), 0⟩) 7)).x =
        (-4 + (normalize3 (⟨1 / 2, -(1 / 2), 0⟩ : Vec3 ℝ)).x * 7 * (1 / 60) : ℝ) := rfl
    rw [h, sub_self, abs_zero]
    norm_num
  · have h : (applyVelocityV ((1 : ℝ) / 60) ⟨-4, 2, 0⟩
        (scale3 (normalize3 ⟨1 / 2, -(1 / 2), 0⟩) 7)).y =
        (2 + (normalize3 (⟨1 / 2, -(1 / 2), 0⟩ : Vec3 ℝ)).y * 7 * (1 / 60) : ℝ) := rfl
    rw [h, sub_self, abs_zero]
    norm_num

/-- The floor-cast is at least 1 on arguments at least 1. -/
theorem usizeFloor_pos (q : ℚ) (h : 1 ≤ q) : 1 ≤ usizeFloor q := by
  have h1 : (1 : ℤ) ≤ ⌊q⌋ := by
    rw [Int.le_floor]
    exact_mod_cast h
  unfold usizeFloor
  omega

/-- The floor-cast is 0 on arguments in `[0, 1)`. -/
theorem usizeFloor_eq_zero (q : ℚ) (h0 : 0 ≤ q) (h1 : q < 1) : usizeFloor q = 0 := by
  have h : ⌊q⌋ = 0 := Int.floor_eq_zero_iff.mpr (Set.mem_Ico.mpr ⟨h0, h1⟩)
  unfold usizeFloor
  omega

/-- Unfolding equation: the brick-grid derivation when every assertion
passes and at least one column fits. -/
theorem brickGridCounts_eq_ok (cfg : ArenaConfig)
    (hx : 0 < cfg.brick_size_x) (hy : 0 < cfg.brick_size_y) (hz : 0 < cfg.brick_size_z)
    (hw : 0 < availableWidth cfg) (hh : 0 < availableHeight cfg)
    (hc : usizeFloor (availableWidth cfg / (cfg.brick_size_x + cfg.gap_bricks)) ≠ 0) :
    brickGridCounts cfg = Except.ok
      (usizeFloor (availableWidth cfg / (cfg.brick_size_x + cfg.gap_bricks)),
       usizeFloor (availableHeight cfg / (cfg.brick_size_y + cfg.gap_bricks))) := by
  unfold brickGridCounts
  rw [if_pos hx, if_pos hy, if_pos hz, if_pos hw, if_pos hh, if_neg hc]

/-- A successful brick-grid derivation implies every assertion held. -/
theorem brickGridCounts_pos_of_ok (cfg : ArenaConfig) (p : ℕ × ℕ)
    (h : brickGridCounts cfg = Except.ok p) :
    0 < cfg.brick_size_x ∧ 0 < cfg.brick_size_y ∧ 0 < cfg.brick_size_z ∧
    0 < availableWidth cfg ∧ 0 < availableHeight cfg := by
  unfold brickGridCounts at h
  split_ifs at h with h1 h2 h3 h4 h5 h6 <;>
    first
    | exact ⟨h1, h2, h3, h4, h5⟩
    | exact Except.noConfusion h

/-- C9 counterexample: a configuration with positive available width
and height where a column fits but no row does — the generator does
not fail fast: it succeeds with `n_rows = 0` (the brick loop just runs
zero times), contradicting the claim that it terminates at startup
whenever `(brick_size + gap) ≤ available_space` fails. -/
theorem row_deficient_config_proceeds :
    0 < availableHeight rowDeficientConfig ∧
    availableHeight rowDeficientConfig <
      rowDeficientConfig.brick_size_y + rowDeficientConfig.gap_bricks ∧
    brickGridCounts rowDeficientConfig = Except.ok (6, 0) := by
  have harg1 : availableWidth rowDeficientConfig /
      (rowDeficientConfig.brick_size_x + rowDeficientConfig.gap_bricks) = 90 / 13 := by
    norm_num [availableWidth, rowDeficientConfig]
  have harg2 : availableHeight rowDeficientConfig /
      (rowDeficientConfig.brick_size_y + rowDeficientConfig.gap_bricks) = 1 / 7 := by
    norm_num [availableHeight, rowDeficientConfig]
  have hfl1 : ⌊(90 : ℚ) / 13⌋ = 6 := by
    rw [Int.floor_eq_iff]
    constructor <;> norm_num
  have hfl2 : ⌊(1 : ℚ) / 7⌋ = 0 := by
    rw [Int.floor_eq_iff]
    constructor <;> norm_num
  have hc : usizeFloor (availableWidth rowDeficientConfig /
      (rowDeficientConfig.brick_size_x + rowDeficientConfig.gap_bricks)) = 6 := by
    unfold usizeFloor
    rw [harg1, hfl1]
    rfl
  have hr : usizeFloor (availableHeight rowDeficientConfig /
      (rowDeficientConfig.brick_size_y + rowDeficientConfig.gap_bricks)) = 0 := by
    unfold usizeFloor
    rw [harg2, hfl2]
    rfl
  refine ⟨by norm_num [availableHeight, rowDeficientConfig],
    by norm_num [availableHeight, rowDeficientConfig], ?_⟩
  rw [brickGridCounts_eq_ok rowDeficientConfig
    (by norm_num [rowDeficientConfig]) (by norm_num [rowDeficientConfig])
    (by norm_num [rowDeficientConfig])
    (by norm_num [availableWidth, rowDeficientConfig])
    (by norm_num [availableHeight, rowDeficientConfig])
    (by rw [hc]; norm_num), hc, hr]

/-- C9 (amended): with positive brick dimensions, nonnegative brick gap
and positive available width and height, the generator yields
`n_columns ≥ 1` and `n_rows ≥ 1` whenever `(brick_size + gap)` fits the
available space on both axes; it fails fast (startup panic) when any
brick dimension or the derived grid width/height is non-positive, when
the arena height/width is non-positive (the `WallLocation::size`
asserts), and when no column fits (the `n_columns - 1` usize
underflow); but when only the height is insufficient it does not fail:
it proceeds with `n_rows = 0`. -/
theorem brick_grid_counts_spec :
    (∀ cfg : ArenaConfig,
      0 < cfg.brick_size_x → 0 < cfg.brick_size_y → 0 < cfg.brick_size_z →
      0 ≤ cfg.gap_bricks → 0 < availableWidth cfg → 0 < availableHeight cfg →
      cfg.brick_size_x + cfg.gap_bricks ≤ availableWidth cfg →
      cfg.brick_size_y + cfg.gap_bricks ≤ availableHeight cfg →
      ∃ c r : ℕ, brickGridCounts cfg = Except.ok (c, r) ∧ 1 ≤ c ∧ 1 ≤ r) ∧
    (∀ cfg : ArenaConfig,
      cfg.brick_size_x ≤ 0 ∨ cfg.brick_size_y ≤ 0 ∨ cfg.brick_size_z ≤ 0 ∨
        availableWidth cfg ≤ 0 ∨ availableHeight cfg ≤ 0 →
      ∃ m : String, brickGridCounts cfg = Except.error m) ∧
    (∀ (cfg : ArenaConfig) (loc : WallLocation),
      arenaHeightOf cfg ≤ 0 ∨ arenaWidthOf cfg ≤ 0 →
      ∃ m : String, wallSizeChecked cfg loc = Except.error m) ∧
    (∀ cfg : ArenaConfig,
      0 < cfg.brick_size_x → 0 < cfg.brick_size_y → 0 < cfg.brick_size_z →
      0 < cfg.brick_size_x + cfg.gap_bricks →
      0 < availableWidth cfg → 0 < availableHeight cfg →
      availableWidth cfg < cfg.brick_size_x + cfg.gap_bricks →
      brickGridCounts cfg = Except.error "attempt to subtract with overflow") ∧
    (∀ cfg : ArenaConfig,
      0 < cfg.brick_size_x → 0 < cfg.brick_size_y → 0 < cfg.brick_size_z →
      0 ≤ cfg.gap_bricks → 0 < availableWidth cfg → 0 < availableHeight cfg →
      cfg.brick_size_x + cfg.gap_bricks ≤ availableWidth cfg →
      availableHeight cfg < cfg.brick_size_y + cfg.gap_bricks →
      ∃ c : ℕ, brickGridCounts cfg = Except.ok (c, 0) ∧ 1 ≤ c) := by
  refine ⟨?_, ?_, ?_, ?_, ?_⟩
  · intro cfg hx hy hz hg hw hh hcw hch
    have hdx : 0 < cfg.brick_size_x + cfg.gap_bricks := by linarith
    have hdy : 0 < cfg.brick_size_y + cfg.gap_bricks := by linarith
    have hqx : 1 ≤ availableWidth cfg / (cfg.brick_size_x + cfg.gap_bricks) :=
      (one_le_div hdx).mpr hcw
    have hqy : 1 ≤ availableHeight cfg / (cfg.brick_size_y + cfg.gap_bricks) :=
      (one_le_div hdy).mpr hch
    have hc := usizeFloor_pos _ hqx
    have hr := usizeFloor_pos _ hqy
    exact ⟨_, _, brickGridCounts_eq_ok cfg hx hy hz hw hh (by omega), hc, hr⟩
  · intro cfg hbad
    cases hres : brickGridCounts cfg with
    | error m => exact ⟨m, rfl⟩
    | ok p =>
      obtain ⟨p1, p2, p3, p4, p5⟩ := brickGridCounts_pos_of_ok cfg p hres
      rcases hbad with h | h | h | h | h <;> linarith
  · intro cfg loc hbad
    unfold wallSizeChecked
    by_cases hh : 0 < arenaHeightOf cfg
    · have hw : ¬ 0 < arenaWidthOf cfg := by
        rcases hbad with h | h
        · linarith
        · linarith
      rw [if_pos hh, if_neg hw]
      exact ⟨_, rfl⟩
    · rw [if_neg hh]
      exact ⟨_, rfl⟩
  · intro cfg hx hy hz hd hw hh hlt
    have hq0 : 0 ≤ availableWidth cfg / (cfg.brick_size_x + cfg.gap_bricks) :=
      div_nonneg (le_of_lt hw) (le_of_lt hd)
    have hq1 : availableWidth cfg / (cfg.brick_size_x + cfg.gap_bricks) < 1 :=
      (div_lt_one hd).mpr hlt
    have hc : usizeFloor (availableWidth cfg / (cfg.brick_size_x + cfg.gap_bricks)) = 0 :=
      usizeFloor_eq_zero _ hq0 hq1
    unfold brickGridCounts
    rw [if_pos hx, if_pos hy, if_pos hz, if_pos hw, if_pos hh, if_pos hc]
  · intro cfg hx hy hz hg hw hh hcw hrow
    have hdx : 0 < cfg.brick_size_x + cfg.gap_bricks := by linarith
    have hdy : 0 < cfg.brick_size_y + cfg.gap_bricks := by linarith
    have hqx : 1 ≤ availableWidth cfg / (cfg.brick_size_x + cfg.gap_bricks) :=
      (one_le_div hdx).mpr hcw
    have hc := usizeFloor_pos _ hqx
    have hr : usizeFloor (availableHeight cfg / (cfg.brick_size_y + cfg.gap_bricks)) = 0 :=
      usizeFloor_eq_zero _ (div_nonneg (le_of_lt hh) (le_of_lt hdy))
        ((div_lt_one hdy).mpr hrow)
    refine ⟨_, ?_, hc⟩
    rw [brickGridCounts_eq_ok cfg hx hy hz hw hh (by omega), hr]

/-- Witness for C9 at the source's configuration: the generator
succeeds with at least one column and one row (in fact 6 columns and 9
rows). -/
theorem brick_grid_counts_spec_witness :
    ∃ c r : ℕ, brickGridCounts theArenaConfig = Except.ok (c, r) ∧ 1 ≤ c ∧ 1 ≤ r :=
  brick_grid_counts_spec.1 theArenaConfig
    (by norm_num [theArenaConfig, BRICK_SIZE])
    (by norm_num [theArenaConfig, BRICK_SIZE])
    (by norm_num [theArenaConfig, BRICK_SIZE])
    (by norm_num [theArenaConfig, GAP_BETWEEN_BRICKS])
    (by norm_num [availableWidth, theArenaConfig, RIGHT_WALL, LEFT_WALL,
      GAP_BETWEEN_BRICKS_AND_SIDES])
    (by norm_num [availableHeight, theArenaConfig, TOP_WALL, BOTTOM_WALL,
      GAP_BETWEEN_PADDLE_AND_FLOOR, GAP_BETWEEN_PADDLE_AND_BRICKS,
      GAP_BETWEEN_BRICKS_AND_CEILING])
    (by norm_num [availableWidth, theArenaConfig, BRICK_SIZE, GAP_BETWEEN_BRICKS,
      RIGHT_WALL, LEFT_WALL, GAP_BETWEEN_BRICKS_AND_SIDES])
    (by norm_num [availableHeight, theArenaConfig, BRICK_SIZE, GAP_BETWEEN_BRICKS,
      TOP_WALL, BOTTOM_WALL, GAP_BETWEEN_PADDLE_AND_FLOOR,
      GAP_BETWEEN_PADDLE_AND_BRICKS, GAP_BETWEEN_BRICKS_AND_CEILING])
